import Mathlib

/-!
# Verification of the sidereal position-resolution engine

Shallow embedding of the core of the `vedic_astrology_app` repository:
`src/services/astro_calculator.py`, `src/models/constants.py`,
`src/models/chart_data.py`, `src/models/birth_data.py`,
`src/services/chart_generator.py` and `src/services/vac_file_handler.py`.

Real-valued (Python `float`) quantities are modelled as exact rationals `ℚ`;
decimal literals of the source are the corresponding exact rationals.
Python's `%` on floats with a positive modulus is `x - m * ⌊x / m⌋`, and
Python's `int(...)` on a float truncates toward zero; both are embedded
explicitly below.  Raised exceptions are modelled with `Except` / `Option`.
-/

set_option autoImplicit false

namespace VedicAstro

/-- Python `x % m` for floats with positive modulus `m`: result in `[0, m)`. -/
def pymod (x m : ℚ) : ℚ := x - m * ⌊x / m⌋

/-- Python `int(x)` on a float: truncation toward zero. -/
def pyint (q : ℚ) : ℤ := if 0 ≤ q then ⌊q⌋ else -⌊-q⌋

/-- Python `s.endswith(suffix)` on strings. -/
def str_endswith (s suffix : String) : Bool := suffix.data.isSuffixOf s.data

/-! ## Constants (`src/models/constants.py`) -/

/-- `AYANAMSA_BASE_YEAR = 2023` -/
def AYANAMSA_BASE_YEAR : ℤ := 2023

/-- `AYANAMSA_BASE_VALUE = 24.18` (degrees for March 2023) -/
def AYANAMSA_BASE_VALUE : ℚ := 24.18

/-- `AYANAMSA_ANNUAL_RATE = 0.013957142857` (degrees per year) -/
def AYANAMSA_ANNUAL_RATE : ℚ := 0.013957142857

/-- `NAKSHATRA_DEGREES = 13.333333333333` (the source's decimal literal,
which is slightly less than 360/27). -/
def NAKSHATRA_DEGREES : ℚ := 13.333333333333

/-- `PADA_DEGREES = 3.333333333333` -/
def PADA_DEGREES : ℚ := 3.333333333333

/-- `PLANETS`: point identifiers in order. -/
def PLANETS : List String :=
  ["lagna", "sun", "moon", "mars", "mercury",
   "jupiter", "venus", "saturn", "rahu", "ketu"]

/-- `FLATLIB_PLANET_MAP` as an association list (`dict.get` is `List.lookup`). -/
def FLATLIB_PLANET_MAP : List (String × String) :=
  [("lagna", "ASC"), ("sun", "SUN"), ("moon", "MOON"), ("mars", "MARS"),
   ("mercury", "MERCURY"), ("jupiter", "JUPITER"), ("venus", "VENUS"),
   ("saturn", "SATURN"), ("rahu", "NORTH_NODE"), ("ketu", "SOUTH_NODE")]

/-! ## Errors (spec §7 taxonomy; the source raises `ValueError`) -/

/-- Error raised by `calculate_ayanamsa` for a year outside [1800, 2200]
(the spec's `RangeError`; a `ValueError` in the source). -/
inductive AstroError where
  | RangeError
  deriving DecidableEq, Repr

/-! ## `AstroCalculator` (`src/services/astro_calculator.py`) -/

/-- `AstroCalculator.normalize_degree`: `normalized = degree % 360`;
`return normalized if normalized >= 0 else normalized + 360`. -/
def normalize_degree (degree : ℚ) : ℚ :=
  let normalized := pymod degree 360
  if 0 ≤ normalized then normalized else normalized + 360

/-- `AstroCalculator.calculate_ayanamsa`: raises for year outside
[1800, 2200], otherwise `AYANAMSA_BASE_VALUE + (year - AYANAMSA_BASE_YEAR) *
AYANAMSA_ANNUAL_RATE`. -/
def calculate_ayanamsa (year : ℤ) : Except AstroError ℚ :=
  if 1800 ≤ year ∧ year ≤ 2200 then
    Except.ok (AYANAMSA_BASE_VALUE + (year - AYANAMSA_BASE_YEAR) * AYANAMSA_ANNUAL_RATE)
  else
    Except.error AstroError.RangeError

/-- `AstroCalculator.tropical_to_sidereal`: subtract the ayanamsa and
normalize; the range error of `calculate_ayanamsa` propagates. -/
def tropical_to_sidereal (degree : ℚ) (year : ℤ) : Except AstroError ℚ := do
  let ayanamsa ← calculate_ayanamsa year
  pure (normalize_degree (degree - ayanamsa))

/-! ## Zodiac signs (`src/models/constants.py`, class `ZodiacSign`) -/

/-- The 12 members of the `ZodiacSign` enumeration. -/
inductive ZodiacSign where
  | ARIES | TAURUS | GEMINI | CANCER | LEO | VIRGO
  | LIBRA | SCORPIO_ | SAGITTARIUS | CAPRICORN | AQUARIUS | PISCES
  deriving DecidableEq, Repr

/-- `ZodiacSign.index`: first component of the enum value tuple. -/
def ZodiacSign.index : ZodiacSign → ℤ
  | .ARIES => 0 | .TAURUS => 1 | .GEMINI => 2 | .CANCER => 3
  | .LEO => 4 | .VIRGO => 5 | .LIBRA => 6 | .SCORPIO_ => 7
  | .SAGITTARIUS => 8 | .CAPRICORN => 9 | .AQUARIUS => 10 | .PISCES => 11

/-- `ZodiacSign.name_str`: second component of the enum value tuple. -/
def ZodiacSign.name_str : ZodiacSign → String
  | .ARIES => "Aries" | .TAURUS => "Taurus" | .GEMINI => "Gemini"
  | .CANCER => "Cancer" | .LEO => "Leo" | .VIRGO => "Virgo"
  | .LIBRA => "Libra" | .SCORPIO_ => "Scorpio" | .SAGITTARIUS => "Sagittarius"
  | .CAPRICORN => "Capricorn" | .AQUARIUS => "Aquarius" | .PISCES => "Pisces"

/-- Iteration order of `for sign in cls` (enum declaration order). -/
def ZodiacSign.members : List ZodiacSign :=
  [.ARIES, .TAURUS, .GEMINI, .CANCER, .LEO, .VIRGO,
   .LIBRA, .SCORPIO_, .SAGITTARIUS, .CAPRICORN, .AQUARIUS, .PISCES]

/-- `ZodiacSign.from_degree`: `normalized = degree % 360`;
`sign_index = int(normalized // 30)`; first member whose index matches,
defaulting to `ARIES`.  (`//` on non-negative floats is the floor, and
`int` of the already-integral float is exact.) -/
def ZodiacSign.from_degree (degree : ℚ) : ZodiacSign :=
  let normalized := pymod degree 360
  let sign_index : ℤ := ⌊normalized / 30⌋
  (ZodiacSign.members.find? (fun s => s.index = sign_index)).getD .ARIES

/-- `AstroCalculator.get_zodiac_sign`: normalize, look up the sign, and
return it with `degree_in_sign = normalized % 30`. -/
def get_zodiac_sign (degree : ℚ) : ZodiacSign × ℚ :=
  let normalized := normalize_degree degree
  let sign := ZodiacSign.from_degree normalized
  let degree_in_sign := pymod normalized 30
  (sign, degree_in_sign)

/-! ## Nakshatras (`src/models/constants.py`, class `Nakshatra`) -/

/-- The 27 members of the `Nakshatra` enumeration. -/
inductive Nakshatra where
  | ASHWINI | BHARANI | KRITTIKA | ROHINI | MRIGASHIRA | ARDRA
  | PUNARVASU | PUSHYA | ASHLESHA | MAGHA | PURVA_PHALGUNI
  | UTTARA_PHALGUNI | HASTA | CHITRA | SWATI | VISHAKHA | ANURADHA
  | JYESHTHA | MULA | PURVA_ASHADHA | UTTARA_ASHADHA | SHRAVANA
  | DHANISHTA | SHATABHISHA | PURVA_BHADRAPADA | UTTARA_BHADRAPADA | REVATI
  deriving DecidableEq, Repr

/-- `Nakshatra.index`: first component of the enum value tuple. -/
def Nakshatra.index : Nakshatra → ℤ
  | .ASHWINI => 0 | .BHARANI => 1 | .KRITTIKA => 2 | .ROHINI => 3
  | .MRIGASHIRA => 4 | .ARDRA => 5 | .PUNARVASU => 6 | .PUSHYA => 7
  | .ASHLESHA => 8 | .MAGHA => 9 | .PURVA_PHALGUNI => 10
  | .UTTARA_PHALGUNI => 11 | .HASTA => 12 | .CHITRA => 13 | .SWATI => 14
  | .VISHAKHA => 15 | .ANURADHA => 16 | .JYESHTHA => 17 | .MULA => 18
  | .PURVA_ASHADHA => 19 | .UTTARA_ASHADHA => 20 | .SHRAVANA => 21
  | .DHANISHTA => 22 | .SHATABHISHA => 23 | .PURVA_BHADRAPADA => 24
  | .UTTARA_BHADRAPADA => 25 | .REVATI => 26

/-- `Nakshatra.name_str`: second component of the enum value tuple. -/
def Nakshatra.name_str : Nakshatra → String
  | .ASHWINI => "Ashwini" | .BHARANI => "Bharani" | .KRITTIKA => "Krittika"
  | .ROHINI => "Rohini" | .MRIGASHIRA => "Mrigashira" | .ARDRA => "Ardra"
  | .PUNARVASU => "Punarvasu" | .PUSHYA => "Pushya" | .ASHLESHA => "Ashlesha"
  | .MAGHA => "Magha" | .PURVA_PHALGUNI => "Purva Phalguni"
  | .UTTARA_PHALGUNI => "Uttara Phalguni" | .HASTA => "Hasta"
  | .CHITRA => "Chitra" | .SWATI => "Swati" | .VISHAKHA => "Vishakha"
  | .ANURADHA => "Anuradha" | .JYESHTHA => "Jyeshtha" | .MULA => "Mula"
  | .PURVA_ASHADHA => "Purva Ashadha" | .UTTARA_ASHADHA => "Uttara Ashadha"
  | .SHRAVANA => "Shravana" | .DHANISHTA => "Dhanishta"
  | .SHATABHISHA => "Shatabhisha" | .PURVA_BHADRAPADA => "Purva Bhadrapada"
  | .UTTARA_BHADRAPADA => "Uttara Bhadrapada" | .REVATI => "Revati"

/-- Iteration order of `for nak in cls` (enum declaration order). -/
def Nakshatra.members : List Nakshatra :=
  [.ASHWINI, .BHARANI, .KRITTIKA, .ROHINI, .MRIGASHIRA, .ARDRA,
   .PUNARVASU, .PUSHYA, .ASHLESHA, .MAGHA, .PURVA_PHALGUNI,
   .UTTARA_PHALGUNI, .HASTA, .CHITRA, .SWATI, .VISHAKHA, .ANURADHA,
   .JYESHTHA, .MULA, .PURVA_ASHADHA, .UTTARA_ASHADHA, .SHRAVANA,
   .DHANISHTA, .SHATABHISHA, .PURVA_BHADRAPADA, .UTTARA_BHADRAPADA, .REVATI]

/-- `Nakshatra.degree_start`: `self.index * NAKSHATRA_DEGREES`. -/
def Nakshatra.degree_start (n : Nakshatra) : ℚ :=
  (n.index : ℚ) * NAKSHATRA_DEGREES

/-- `Nakshatra.from_degree`: `normalized = degree % 360`;
`nakshatra_index = min(int(normalized // NAKSHATRA_DEGREES), 26)`;
first member whose index matches, defaulting to `ASHWINI`. -/
def Nakshatra.from_degree (degree : ℚ) : Nakshatra :=
  let normalized := pymod degree 360
  let nakshatra_index : ℤ := min ⌊normalized / NAKSHATRA_DEGREES⌋ 26
  (Nakshatra.members.find? (fun n => n.index = nakshatra_index)).getD .ASHWINI

/-- `AstroCalculator.get_nakshatra_and_pada`: normalize, look up the
nakshatra, and compute
`pada = min(max(int(degree_in_nakshatra // PADA_DEGREES) + 1, 1), 4)`. -/
def get_nakshatra_and_pada (degree : ℚ) : Nakshatra × ℤ :=
  let normalized := normalize_degree degree
  let nakshatra := Nakshatra.from_degree normalized
  let degree_in_nakshatra := normalized - nakshatra.degree_start
  let pada := ⌊degree_in_nakshatra / PADA_DEGREES⌋ + 1
  (nakshatra, min (max pada 1) 4)

/-- `AstroCalculator.decimal_to_dms`: `degrees = int(d)`;
`minutes_decimal = (d - degrees) * 60`; `minutes = int(minutes_decimal)`;
`seconds = int((minutes_decimal - minutes) * 60)`. -/
def decimal_to_dms (decimal_degree : ℚ) : ℤ × ℤ × ℤ :=
  let degrees := pyint decimal_degree
  let minutes_decimal := (decimal_degree - degrees) * 60
  let minutes := pyint minutes_decimal
  let seconds := pyint ((minutes_decimal - minutes) * 60)
  (degrees, minutes, seconds)

/-! ## `PlanetaryPosition` (`src/models/chart_data.py`) -/

/-- The `PlanetaryPosition` dataclass. -/
structure PlanetaryPosition where
  name : String
  sign : String
  degree : ℚ
  nakshatra : String
  pada : ℤ
  absolute_degree : ℚ
  deriving DecidableEq, Repr

/-- `AstroCalculator.create_planetary_position`: resolve one raw tropical
longitude into a full `PlanetaryPosition`; the range error of
`tropical_to_sidereal` propagates. -/
def create_planetary_position (planet_name : String) (degree : ℚ) (year : ℤ) :
    Except AstroError PlanetaryPosition := do
  let sidereal_degree ← tropical_to_sidereal degree year
  let (sign, degree_in_sign) := get_zodiac_sign sidereal_degree
  let (nakshatra, pada) := get_nakshatra_and_pada sidereal_degree
  pure { name := planet_name, sign := sign.name_str, degree := degree_in_sign,
         nakshatra := nakshatra.name_str, pada := pada,
         absolute_degree := sidereal_degree }

/-! ## `BirthData` (`src/models/birth_data.py`)

`BirthData.__post_init__` validates the date against `strptime('%Y/%m/%d')`,
the time against `strptime('%H:%M:%S')` and the timezone against the regex
`^[+-]\d\x7b2\x7d:\d\x7b2\x7d$`; construction raises `ValueError` on failure.
The validators below embed those checks on the zero-padded fixed-width
forms (`YYYY/MM/DD`, `HH:MM:SS`, `±HH:MM`), including `strptime`'s calendar
check (month 1–12, day bounded by the month length with leap years, hour
0–23, minute 0–59, second 0–61). -/

/-- Decimal value of a digit character. -/
def digitVal (c : Char) : ℕ := c.toNat - 48

/-- Number of days in a month, with the Gregorian leap-year rule used by
`datetime`. -/
def daysInMonth (year month : ℕ) : ℕ :=
  if month = 2 then
    if year % 4 = 0 ∧ (year % 100 ≠ 0 ∨ year % 400 = 0) then 29 else 28
  else if month = 4 ∨ month = 6 ∨ month = 9 ∨ month = 11 then 30
  else 31

/-- `strptime(date, '%Y/%m/%d')` succeeds (zero-padded form). -/
def validDate (s : String) : Bool :=
  match s.data with
  | [y1, y2, y3, y4, '/', m1, m2, '/', d1, d2] =>
    if (y1.isDigit && y2.isDigit && y3.isDigit && y4.isDigit &&
        m1.isDigit && m2.isDigit && d1.isDigit && d2.isDigit) then
      let year := 1000 * digitVal y1 + 100 * digitVal y2 + 10 * digitVal y3 + digitVal y4
      let month := 10 * digitVal m1 + digitVal m2
      let day := 10 * digitVal d1 + digitVal d2
      decide (1 ≤ month ∧ month ≤ 12 ∧ 1 ≤ day ∧ day ≤ daysInMonth year month)
    else false
  | _ => false

/-- `strptime(time, '%H:%M:%S')` succeeds (zero-padded form). -/
def validTime (s : String) : Bool :=
  match s.data with
  | [h1, h2, ':', m1, m2, ':', s1, s2] =>
    if (h1.isDigit && h2.isDigit && m1.isDigit && m2.isDigit &&
        s1.isDigit && s2.isDigit) then
      let hour := 10 * digitVal h1 + digitVal h2
      let minute := 10 * digitVal m1 + digitVal m2
      let second := 10 * digitVal s1 + digitVal s2
      decide (hour ≤ 23 ∧ minute ≤ 59 ∧ second ≤ 61)
    else false
  | _ => false

/-- The timezone regex `^[+-]\d\x7b2\x7d:\d\x7b2\x7d$` matches. -/
def validTimezone (s : String) : Bool :=
  match s.data with
  | [sg, h1, h2, ':', m1, m2] =>
    (sg = '+' || sg = '-') && h1.isDigit && h2.isDigit && m1.isDigit && m2.isDigit
  | _ => false

/-- The `BirthData` dataclass (latitude/longitude optional, filled in by
geocoding). -/
structure BirthData where
  date : String
  time : String
  place : String
  timezone : String
  latitude : Option ℚ := none
  longitude : Option ℚ := none
  deriving DecidableEq, Repr

/-- `BirthData.__post_init__` validation: all three format checks pass. -/
def BirthData.valid (b : BirthData) : Bool :=
  validDate b.date && validTime b.time && validTimezone b.timezone

/-- Python `int(s)` on a string of digits (`None` where Python raises). -/
def parse_nat (cs : List Char) : Option ℕ :=
  if cs ≠ [] ∧ cs.all Char.isDigit then
    some (cs.foldl (fun acc c => 10 * acc + digitVal c) 0)
  else none

/-- `BirthData.year`: `int(self.date[:4])`.  (For a date accepted by
validation the first four characters are digits; for other strings Python
`int` would raise, embedded here as the 0 default.) -/
def BirthData.year (b : BirthData) : ℤ :=
  ((parse_nat (b.date.data.take 4)).getD 0 : ℕ)

/-! ## `ChartData` (`src/models/chart_data.py`)

Python dictionaries are embedded as insertion-ordered association lists.
The `houses` dictionary is keyed by `int` house numbers when produced by
`ChartGenerator`, but by the JSON object's *string* keys after
`VACFileHandler.load_chart`; the dynamic key type is made explicit. -/

/-- A Python dictionary key that is either an `int` or a `str` (the two key
types that actually occur for the `houses` mapping). -/
inductive HouseKey where
  | int (n : ℤ)
  | str (s : String)
  deriving DecidableEq, Repr

/-- `str(key)` as used by `json.dump` when serializing an `int` key. -/
def HouseKey.toStr : HouseKey → String
  | .int n => toString n
  | .str s => s

/-- The `ChartData` dataclass. -/
structure ChartData where
  birth_info : BirthData
  planets : List (String × PlanetaryPosition)
  houses : List (HouseKey × ℚ)
  ayanamsa : ℚ
  deriving DecidableEq, Repr

/-! ## `ChartGenerator` (`src/services/chart_generator.py`)

The flatlib ephemeris is an external collaborator; it is embedded as two
capability functions: `eph` maps a flatlib constant name (`chart.get`) to a
tropical longitude, `ephHouse` maps a house number (`chart.getHouse`) to a
tropical cusp longitude, with `none` for a raised per-point exception.
`GeocodingService.get_coordinates` is likewise a capability `geo`, `none`
for a raised lookup failure.  The outer `try`/`except` of `generate_chart`
re-raises any escaping exception as `ValueError`, embedded as
`Except.error`. -/

/-- The planet-extraction loop of `generate_chart`: for each name in
`PLANETS`, look up the flatlib constant, query the ephemeris and build the
position; any per-point failure is logged and the point omitted. -/
def build_planets (eph : String → Option ℚ) (year : ℤ) :
    List (String × PlanetaryPosition) :=
  PLANETS.filterMap (fun planet_name =>
    (FLATLIB_PLANET_MAP.lookup planet_name).bind (fun flatlib_name =>
      (eph flatlib_name).bind (fun lon =>
        (create_planetary_position planet_name lon year).toOption.map
          (fun position => (planet_name, position)))))

/-- The house-extraction loop of `generate_chart`: houses 1–12, each
converted with `tropical_to_sidereal`; per-house failures omitted. -/
def build_houses (ephHouse : ℕ → Option ℚ) (year : ℤ) : List (HouseKey × ℚ) :=
  (List.range' 1 12).filterMap (fun house_num =>
    (ephHouse house_num).bind (fun lon =>
      (tropical_to_sidereal lon year).toOption.map
        (fun sidereal => (HouseKey.int house_num, sidereal))))

/-- `ChartGenerator.generate_chart`: geocode if coordinates are missing,
extract planets and houses with per-point graceful degradation, compute the
ayanamsa once, and assemble the `ChartData`.  A geocoding failure or an
out-of-range birth year escapes the per-point handlers and is re-raised by
the outer handler as `ValueError` (`Except.error ()`). -/
def generate_chart (eph : String → Option ℚ) (ephHouse : ℕ → Option ℚ)
    (geo : String → Option (ℚ × ℚ)) (birth_data : BirthData) :
    Except Unit ChartData := do
  let birth_data ←
    if birth_data.latitude = none ∨ birth_data.longitude = none then
      match geo birth_data.place with
      | none => Except.error ()
      | some (lat, lon) =>
        pure { birth_data with latitude := some lat, longitude := some lon }
    else
      pure birth_data
  let planets_data := build_planets eph birth_data.year
  let houses_data := build_houses ephHouse birth_data.year
  match calculate_ayanamsa birth_data.year with
  | Except.error _ => Except.error ()
  | Except.ok ayanamsa =>
    pure { birth_info := birth_data, planets := planets_data,
           houses := houses_data, ayanamsa := ayanamsa }

/-! ## `VACFileHandler` (`src/services/vac_file_handler.py`)

The persisted `.vac` document is JSON; it is embedded as a `Json` value.
`json.dump` converts `int` dictionary keys to their decimal strings, and
JSON objects preserve insertion order, as do Python dictionaries, so the
dictionaries of the document are ordered association lists.  A file's
content is either a parseable JSON value or `malformed`
(`json.JSONDecodeError` on `json.load`).

The loader accesses `chart_dict[...]` fields without `isinstance` checks;
a missing key or a wrongly-typed traversal step raises and is caught by
the blanket handler, yielding `None`.  The typed decoders below return
`none` in exactly those cases, and additionally require number/string
fields to carry the declared type (Python would let a wrongly-typed leaf
value flow unchecked into the dataclass; no property below depends on such
documents). -/

/-- A JSON value (as produced by `json.load`; numbers keep Python's
`int` / `float` distinction). -/
inductive Json where
  | null
  | bool (b : Bool)
  | str (s : String)
  | int (n : ℤ)
  | num (q : ℚ)
  | arr (elems : List Json)
  | obj (fields : List (String × Json))

/-- `d[k]` / `d.get(k)` on a JSON object: `none` when the value is not an
object or lacks the key. -/
def Json.getKey? (j : Json) (k : String) : Option Json :=
  match j with
  | .obj fields => (fields.find? (fun f => f.1 = k)).map (fun f => f.2)
  | _ => none

/-- The fields of a JSON object (`dict.items()`). -/
def Json.asObj? : Json → Option (List (String × Json))
  | .obj fields => some fields
  | _ => none

/-- A JSON string leaf. -/
def Json.asStr? : Json → Option String
  | .str s => some s
  | _ => none

/-- A JSON integer leaf. -/
def Json.asInt? : Json → Option ℤ
  | .int n => some n
  | _ => none

/-- A JSON numeric leaf (`int` or `float`), as a rational. -/
def Json.asNum? : Json → Option ℚ
  | .int n => some (n : ℚ)
  | .num q => some q
  | _ => none

/-- Encoding of an optional float (`None` serializes as JSON `null`). -/
def Json.ofOptNum : Option ℚ → Json
  | none => .null
  | some q => .num q

/-- Decoding of an optional float via `dict.get`: missing key, `null` and
non-numeric values all yield `None`. -/
def Json.optNum? (j? : Option Json) : Option ℚ :=
  match j? with
  | some j => j.asNum?
  | none => none

/-- `VACFileHandler.VERSION` -/
def VAC_VERSION : String := "1.0"

/-- `VACFileHandler.FILE_EXTENSION` -/
def FILE_EXTENSION : String := ".vac"

/-- The `chart_dict` built by `VACFileHandler.save_chart` (the `created`
timestamp from `datetime.now().isoformat()` is an input of the model). -/
def chart_to_json (chart_data : ChartData) (created : String) : Json :=
  .obj [("version", .str VAC_VERSION),
        ("created", .str created),
        ("birth_info", .obj
          [("date", .str chart_data.birth_info.date),
           ("time", .str chart_data.birth_info.time),
           ("place", .str chart_data.birth_info.place),
           ("timezone", .str chart_data.birth_info.timezone),
           ("latitude", Json.ofOptNum chart_data.birth_info.latitude),
           ("longitude", Json.ofOptNum chart_data.birth_info.longitude)]),
        ("ayanamsa", .num chart_data.ayanamsa),
        ("planets", .obj (chart_data.planets.map (fun p =>
          (p.1, .obj [("name", .str p.2.name),
                      ("sign", .str p.2.sign),
                      ("degree", .num p.2.degree),
                      ("nakshatra", .str p.2.nakshatra),
                      ("pada", .int p.2.pada),
                      ("absolute_degree", .num p.2.absolute_degree)])))),
        ("houses", .obj (chart_data.houses.map (fun h =>
          (h.1.toStr, .num h.2))))]

/-- Outcome of `VACFileHandler.save_chart`: the returned flag, the path
actually written and the JSON document written there. -/
structure SaveResult where
  success : Bool
  path : String
  content : Json

/-- `VACFileHandler.save_chart`: append the `.vac` extension when missing,
serialize, write; `True` on success. -/
def save_chart (chart_data : ChartData) (created : String) (filepath : String) :
    SaveResult :=
  let filepath :=
    if str_endswith filepath FILE_EXTENSION then filepath
    else filepath ++ FILE_EXTENSION
  { success := true, path := filepath,
    content := chart_to_json chart_data created }

/-- Content of an existing file: parseable JSON or not. -/
inductive FileContent where
  | malformed
  | json (j : Json)

/-- Decoding of one serialized planet entry
(`planet_dict["name"]`, ..., all keys required). -/
def load_planet (entry : String × Json) : Option (String × PlanetaryPosition) := do
  let name ← (entry.2.getKey? "name").bind Json.asStr?
  let sign ← (entry.2.getKey? "sign").bind Json.asStr?
  let degree ← (entry.2.getKey? "degree").bind Json.asNum?
  let nakshatra ← (entry.2.getKey? "nakshatra").bind Json.asStr?
  let pada ← (entry.2.getKey? "pada").bind Json.asInt?
  let absolute_degree ← (entry.2.getKey? "absolute_degree").bind Json.asNum?
  pure (entry.1, { name := name, sign := sign, degree := degree,
                   nakshatra := nakshatra, pada := pada,
                   absolute_degree := absolute_degree })

/-- The body of `VACFileHandler.load_chart` after a successful `json.load`:
reconstruct `BirthData` (whose `__post_init__` validation may raise, caught
as `none`), the planets, and the `ChartData`; `chart_dict["houses"]` is
taken over with its JSON *string* keys. -/
def load_chart_json (chart_dict : Json) : Option ChartData := do
  let birth_info_dict ← chart_dict.getKey? "birth_info"
  let date ← (birth_info_dict.getKey? "date").bind Json.asStr?
  let time ← (birth_info_dict.getKey? "time").bind Json.asStr?
  let place ← (birth_info_dict.getKey? "place").bind Json.asStr?
  let timezone ← (birth_info_dict.getKey? "timezone").bind Json.asStr?
  let birth_data : BirthData :=
    { date := date, time := time, place := place, timezone := timezone,
      latitude := Json.optNum? (birth_info_dict.getKey? "latitude"),
      longitude := Json.optNum? (birth_info_dict.getKey? "longitude") }
  if birth_data.valid then
    let planets_json ← (chart_dict.getKey? "planets").bind Json.asObj?
    let planets_data ← planets_json.mapM load_planet
    let houses_json ← (chart_dict.getKey? "houses").bind Json.asObj?
    let houses_data ← houses_json.mapM (fun h =>
      (h.2.asNum?).map (fun v => (HouseKey.str h.1, v)))
    let ayanamsa ← (chart_dict.getKey? "ayanamsa").bind Json.asNum?
    pure { birth_info := birth_data, planets := planets_data,
           houses := houses_data, ayanamsa := ayanamsa }
  else
    none

/-- `VACFileHandler.load_chart` on an existing file: `none` on malformed
JSON (`json.JSONDecodeError`) or any failure inside reconstruction. -/
def load_chart : FileContent → Option ChartData
  | .malformed => none
  | .json j => load_chart_json j

/-- A file system: maps a path to the content of the file there, if any. -/
def FileSystem : Type := String → Option FileContent

/-- `VACFileHandler.load_chart` from a path: `none` when
`not filepath.exists()`. -/
def load_from_fs (fs : FileSystem) (filepath : String) : Option ChartData :=
  match fs filepath with
  | none => none
  | some content => load_chart content

/-- The file system after `VACFileHandler.save_chart` wrote its document. -/
def save_to_fs (fs : FileSystem) (chart_data : ChartData) (created : String)
    (filepath : String) : FileSystem :=
  let r := save_chart chart_data created filepath
  fun p => if p = r.path then some (.json r.content) else fs p

/-- The exact value returned by `calculate_ayanamsa` inside its range. -/
def ayanamsa_value (year : ℤ) : ℚ :=
  AYANAMSA_BASE_VALUE + (year - AYANAMSA_BASE_YEAR) * AYANAMSA_ANNUAL_RATE

/-! ## Helper lemmas -/

lemma pymod_nonneg (x m : ℚ) (hm : 0 < m) : 0 ≤ pymod x m := by
  have h := Int.fract_nonneg (x / m)
  have : pymod x m = m * Int.fract (x / m) := by
    unfold pymod Int.fract
    field_simp
  rw [this]
  positivity

lemma pymod_lt (x m : ℚ) (hm : 0 < m) : pymod x m < m := by
  have h := Int.fract_lt_one (x / m)
  have heq : pymod x m = m * Int.fract (x / m) := by
    unfold pymod Int.fract
    field_simp
  rw [heq]
  calc m * Int.fract (x / m) < m * 1 := by
        exact mul_lt_mul_of_pos_left h hm
    _ = m := mul_one m

lemma pymod_eq_self (x m : ℚ) (hm : 0 < m) (h0 : 0 ≤ x) (h1 : x < m) :
    pymod x m = x := by
  unfold pymod
  have : ⌊x / m⌋ = 0 := by
    rw [Int.floor_eq_zero_iff]
    constructor
    · positivity
    · rw [div_lt_one hm]
      exact h1
  rw [this]
  ring

lemma normalize_degree_eq_pymod (d : ℚ) : normalize_degree d = pymod d 360 := by
  unfold normalize_degree
  rw [if_pos (pymod_nonneg d 360 (by norm_num))]

lemma normalize_degree_nonneg (d : ℚ) : 0 ≤ normalize_degree d := by
  rw [normalize_degree_eq_pymod]
  exact pymod_nonneg d 360 (by norm_num)

lemma normalize_degree_lt (d : ℚ) : normalize_degree d < 360 := by
  rw [normalize_degree_eq_pymod]
  exact pymod_lt d 360 (by norm_num)

lemma normalize_degree_of_mem (d : ℚ) (h0 : 0 ≤ d) (h1 : d < 360) :
    normalize_degree d = d := by
  rw [normalize_degree_eq_pymod]
  exact pymod_eq_self d 360 (by norm_num) h0 h1

lemma calculate_ayanamsa_ok (year : ℤ) (h1 : 1800 ≤ year) (h2 : year ≤ 2200) :
    calculate_ayanamsa year = Except.ok (ayanamsa_value year) := by
  unfold calculate_ayanamsa ayanamsa_value
  rw [if_pos ⟨h1, h2⟩]

lemma tropical_to_sidereal_ok (degree : ℚ) (year : ℤ)
    (h1 : 1800 ≤ year) (h2 : year ≤ 2200) :
    tropical_to_sidereal degree year =
      Except.ok (normalize_degree (degree - ayanamsa_value year)) := by
  unfold tropical_to_sidereal
  rw [calculate_ayanamsa_ok year h1 h2]
  rfl

/-! ## Claims -/

/-- **C6.** For every real `d`, `normalize_degree d` lies in `[0, 360)` and
`normalize_degree` is idempotent. -/
theorem C6_normalize_range_idempotent (d : ℚ) :
    (0 ≤ normalize_degree d ∧ normalize_degree d < 360) ∧
    normalize_degree (normalize_degree d) = normalize_degree d :=
  ⟨⟨normalize_degree_nonneg d, normalize_degree_lt d⟩,
   normalize_degree_of_mem _ (normalize_degree_nonneg d) (normalize_degree_lt d)⟩

/-- **C2.** `calculate_ayanamsa year` fails with `RangeError` iff `year` is
outside `[1800, 2200]`; inside the range it returns exactly
`24.18 + (year - 2023) * 0.013957142857`; in particular the 2023 value is
`24.18` and the years 1799 and 2201 both fail. -/
theorem C2_ayanamsa_range (year : ℤ) :
    (calculate_ayanamsa year = Except.error AstroError.RangeError ↔
      ¬(1800 ≤ year ∧ year ≤ 2200)) ∧
    (1800 ≤ year → year ≤ 2200 →
      calculate_ayanamsa year =
        Except.ok (24.18 + ((year : ℚ) - 2023) * 0.013957142857)) ∧
    calculate_ayanamsa 2023 = Except.ok 24.18 ∧
    calculate_ayanamsa 1799 = Except.error AstroError.RangeError ∧
    calculate_ayanamsa 2201 = Except.error AstroError.RangeError := by
  refine ⟨?_, ?_, ?_, ?_, ?_⟩
  · constructor
    · intro h hmem
      rw [calculate_ayanamsa, if_pos hmem] at h
      exact Except.noConfusion h
    · intro h
      rw [calculate_ayanamsa, if_neg h]
  · intro h1 h2
    rw [calculate_ayanamsa_ok year h1 h2]
    unfold ayanamsa_value AYANAMSA_BASE_VALUE AYANAMSA_BASE_YEAR AYANAMSA_ANNUAL_RATE
    norm_num
  · rw [calculate_ayanamsa_ok 2023 (by norm_num) (by norm_num)]
    unfold ayanamsa_value AYANAMSA_BASE_VALUE AYANAMSA_BASE_YEAR AYANAMSA_ANNUAL_RATE
    norm_num
  · rw [calculate_ayanamsa, if_neg (by norm_num)]
  · rw [calculate_ayanamsa, if_neg (by norm_num)]

/-- Witness for C2 at `year = 2024`:
`ayanamsa(2024) = 24.18 + 0.013957142857`. -/
theorem C2_ayanamsa_range_witness :
    calculate_ayanamsa 2024 = Except.ok (24.18 + 0.013957142857) := by
  have h := (C2_ayanamsa_range 2024).2.1 (by norm_num) (by norm_num)
  rw [h]
  norm_num

/-- **C3.** For every degree `d` and year `y` in `[1800, 2200]`,
`tropical_to_sidereal d y` succeeds with `normalize_degree (d - a)` where
`a` is the ayanamsa for `y`, and the result lies in `[0, 360)`. -/
theorem C3_tropical_to_sidereal (d : ℚ) (y : ℤ)
    (h1 : 1800 ≤ y) (h2 : y ≤ 2200) :
    ∃ a : ℚ, calculate_ayanamsa y = Except.ok a ∧
      tropical_to_sidereal d y = Except.ok (normalize_degree (d - a)) ∧
      0 ≤ normalize_degree (d - a) ∧ normalize_degree (d - a) < 360 :=
  ⟨ayanamsa_value y, calculate_ayanamsa_ok y h1 h2,
   tropical_to_sidereal_ok d y h1 h2,
   normalize_degree_nonneg _, normalize_degree_lt _⟩

/-- Witness for C3 at `d = 24.18`, `y = 2023`: the sidereal degree is the
normalized difference with the 2023 ayanamsa. -/
theorem C3_tropical_to_sidereal_witness :
    ∃ a : ℚ, calculate_ayanamsa 2023 = Except.ok a ∧
      tropical_to_sidereal 24.18 2023 =
        Except.ok (normalize_degree (24.18 - a)) ∧
      0 ≤ normalize_degree (24.18 - a) ∧ normalize_degree (24.18 - a) < 360 :=
  C3_tropical_to_sidereal 24.18 2023 (by norm_num) (by norm_num)

/-- Looking up a zodiac sign by an index in `[0, 11]` finds the member with
that index (the `ARIES` default of `from_degree` is dead for such indices). -/
lemma zodiac_find_index (i : ℤ) (h0 : 0 ≤ i) (h1 : i ≤ 11) :
    ((ZodiacSign.members.find? (fun s => s.index = i)).getD .ARIES).index = i := by
  interval_cases i <;> decide

/-- Looking up a nakshatra by an index in `[0, 26]` finds the member with
that index (the `ASHWINI` default of `from_degree` is dead for such
indices). -/
lemma nakshatra_find_index (i : ℤ) (h0 : 0 ≤ i) (h1 : i ≤ 26) :
    ((Nakshatra.members.find? (fun n => n.index = i)).getD .ASHWINI).index = i := by
  interval_cases i <;> decide

/-- **C4.** Zodiac resolution is total and returns the sign of index
`⌊normalize(d)/30⌋` with `degreeInSign = normalize(d) mod 30`; examples at
0°, 30° and 359.999°. -/
theorem C4_zodiac_resolution (d : ℚ) :
    (get_zodiac_sign d).1.index = ⌊normalize_degree d / 30⌋ ∧
    (get_zodiac_sign d).2 = pymod (normalize_degree d) 30 ∧
    get_zodiac_sign 0 = (.ARIES, 0) ∧
    get_zodiac_sign 30 = (.TAURUS, 0) ∧
    get_zodiac_sign 359.999 = (.PISCES, 29.999) := by
  refine ⟨?_, rfl, ?_, ?_, ?_⟩
  · have hn0 := normalize_degree_nonneg d
    have hn1 := normalize_degree_lt d
    show (ZodiacSign.from_degree (normalize_degree d)).index = _
    unfold ZodiacSign.from_degree
    rw [pymod_eq_self _ _ (by norm_num) hn0 hn1]
    apply zodiac_find_index
    · exact Int.floor_nonneg.mpr (by positivity)
    · have hq : normalize_degree d / 30 < 12 := by linarith
      have h12 : ⌊normalize_degree d / 30⌋ < (12 : ℤ) :=
        Int.floor_lt.mpr (by push_cast; linarith)
      omega
  · simp only [get_zodiac_sign, ZodiacSign.from_degree, normalize_degree, pymod,
      ZodiacSign.members, ZodiacSign.index, List.find?]
    norm_num
  · simp only [get_zodiac_sign, ZodiacSign.from_degree, normalize_degree, pymod,
      ZodiacSign.members, ZodiacSign.index, List.find?]
    norm_num
  · simp only [get_zodiac_sign, ZodiacSign.from_degree, normalize_degree, pymod,
      ZodiacSign.members, ZodiacSign.index, List.find?]
    norm_num

/-- **C5, counterexample.** At `d = 13.333333` the resolver returns
`(Ashwini, pada 4)`, not `(Bharani, pada 1)` as the claim states: the
code's span constant `13.333333333333` exceeds `13.333333`, so the degree
still falls in the last pada of the first nakshatra. -/
theorem C5_nakshatra_counterexample :
    get_nakshatra_and_pada 13.333333 = (Nakshatra.ASHWINI, 4) ∧
    (Nakshatra.ASHWINI, (4 : ℤ)) ≠ (Nakshatra.BHARANI, 1) := by
  constructor
  · simp only [get_nakshatra_and_pada, Nakshatra.from_degree,
      Nakshatra.degree_start, normalize_degree, pymod, Nakshatra.members,
      Nakshatra.index, List.find?, NAKSHATRA_DEGREES, PADA_DEGREES]
    norm_num
  · decide

/-- **C5 (amended).** Nakshatra resolution returns the member of index
`min(⌊normalize(d)/NAKSHATRA_DEGREES⌋, 26)` with
`pada = clamp(⌊(normalize(d) - index·NAKSHATRA_DEGREES)/PADA_DEGREES⌋ + 1, 1, 4)`
(the code constants `13.333333333333` and `3.333333333333`, not exactly
`360/27` and its quarter); the pada always lies in `{1, 2, 3, 4}`;
`resolve(0) = (Ashwini, 1)` and `resolve(13.333333) = (Ashwini, 4)`. -/
theorem C5_nakshatra_resolution (d : ℚ) :
    (get_nakshatra_and_pada d).1.index =
      min ⌊normalize_degree d / NAKSHATRA_DEGREES⌋ 26 ∧
    (get_nakshatra_and_pada d).2 =
      min (max (⌊(normalize_degree d -
          ((min ⌊normalize_degree d / NAKSHATRA_DEGREES⌋ 26 : ℤ) : ℚ) *
            NAKSHATRA_DEGREES) / PADA_DEGREES⌋ + 1) 1) 4 ∧
    (1 ≤ (get_nakshatra_and_pada d).2 ∧ (get_nakshatra_and_pada d).2 ≤ 4) ∧
    get_nakshatra_and_pada 0 = (.ASHWINI, 1) ∧
    get_nakshatra_and_pada 13.333333 = (.ASHWINI, 4) := by
  have hn0 := normalize_degree_nonneg d
  have hn1 := normalize_degree_lt d
  have hidx : (Nakshatra.from_degree (normalize_degree d)).index =
      min ⌊normalize_degree d / NAKSHATRA_DEGREES⌋ 26 := by
    unfold Nakshatra.from_degree
    rw [pymod_eq_self _ _ (by norm_num) hn0 hn1]
    apply nakshatra_find_index
    · have : (0 : ℤ) ≤ ⌊normalize_degree d / NAKSHATRA_DEGREES⌋ :=
        Int.floor_nonneg.mpr (by unfold NAKSHATRA_DEGREES; positivity)
      omega
    · omega
  refine ⟨hidx, ?_, ?_, ?_, ?_⟩
  · show min (max (⌊(normalize_degree d -
        (Nakshatra.from_degree (normalize_degree d)).degree_start) /
          PADA_DEGREES⌋ + 1) 1) 4 = _
    rw [Nakshatra.degree_start, hidx]
  · show 1 ≤ min (max _ 1) 4 ∧ min (max _ 1) 4 ≤ 4
    omega
  · simp only [get_nakshatra_and_pada, Nakshatra.from_degree,
      Nakshatra.degree_start, normalize_degree, pymod, Nakshatra.members,
      Nakshatra.index, List.find?, NAKSHATRA_DEGREES, PADA_DEGREES]
    norm_num
  · exact C5_nakshatra_counterexample.1

/-- The decomposition the spec describes for `toDMS`, written from the
spec's words: floor-based at every step. -/
def decimal_to_dms_floor_spec (d : ℚ) : ℤ × ℤ × ℤ :=
  let deg := ⌊d⌋
  let minFrac := (d - deg) * 60
  let min := ⌊minFrac⌋
  let sec := ⌊(minFrac - min) * 60⌋
  (deg, min, sec)

/-- **C9, counterexample.** At `d = -1.5` the code truncates toward zero
(`int(-1.5) = -1`), yielding `(-1, -30, 0)`, while the claim's floor-based
decomposition yields `(-2, 30, 0)`. -/
theorem C9_dms_counterexample :
    decimal_to_dms (-(3 : ℚ)/2) = (-1, -30, 0) ∧
    decimal_to_dms_floor_spec (-(3 : ℚ)/2) = (-2, 30, 0) ∧
    decimal_to_dms (-(3 : ℚ)/2) ≠ decimal_to_dms_floor_spec (-(3 : ℚ)/2) := by
  refine ⟨?_, ?_, ?_⟩
  · unfold decimal_to_dms pyint
    norm_num
  · unfold decimal_to_dms_floor_spec
    norm_num
  · have e1 : decimal_to_dms (-(3 : ℚ)/2) = (-1, -30, 0) := by
      unfold decimal_to_dms pyint
      norm_num
    have e2 : decimal_to_dms_floor_spec (-(3 : ℚ)/2) = (-2, 30, 0) := by
      unfold decimal_to_dms_floor_spec
      norm_num
    rw [e1, e2]
    decide

/-- **C9 (amended).** `decimal_to_dms` truncates toward zero at every step,
which agrees with the claim's floor-based decomposition for every
non-negative degree (the code's only inputs are degrees in `[0, 30)`); in
particular `29.999999° ↦ (29, 59, 59)`, not `(30, 0, 0)`. -/
theorem C9_dms_truncation (d : ℚ) :
    (0 ≤ d → decimal_to_dms d = decimal_to_dms_floor_spec d) ∧
    decimal_to_dms 29.999999 = (29, 59, 59) := by
  constructor
  · intro h
    simp only [decimal_to_dms, decimal_to_dms_floor_spec, pyint]
    have h1 : 0 ≤ d - (⌊d⌋ : ℚ) := sub_nonneg.mpr (Int.floor_le d)
    have h2 : 0 ≤ (d - (⌊d⌋ : ℚ)) * 60 := mul_nonneg h1 (by norm_num)
    have h3 : 0 ≤ (d - (⌊d⌋ : ℚ)) * 60 - (⌊(d - (⌊d⌋ : ℚ)) * 60⌋ : ℚ) :=
      sub_nonneg.mpr (Int.floor_le _)
    have h4 : 0 ≤ ((d - (⌊d⌋ : ℚ)) * 60 - (⌊(d - (⌊d⌋ : ℚ)) * 60⌋ : ℚ)) * 60 :=
      mul_nonneg h3 (by norm_num)
    rw [if_pos h, if_pos h2, if_pos h4]
  · unfold decimal_to_dms pyint
    norm_num

/-- Witness for C9 at `d = 3/2`: the truncating and floor decompositions
agree on a non-negative input. -/
theorem C9_dms_truncation_witness :
    decimal_to_dms ((3 : ℚ)/2) = decimal_to_dms_floor_spec ((3 : ℚ)/2) :=
  (C9_dms_truncation ((3 : ℚ)/2)).1 (by norm_num)

/-- A validated birth record with coordinates, used as concrete input. -/
def sample_birth : BirthData :=
  { date := "1990/05/15", time := "10:30:00", place := "Chennai",
    timezone := "+05:30", latitude := some 13.0827, longitude := some 80.2707 }

/-- A resolved position for the sun, used as concrete input. -/
def sample_position : PlanetaryPosition :=
  { name := "sun", sign := "Aries", degree := 5.5, nakshatra := "Ashwini",
    pada := 2, absolute_degree := 5.5 }

/-- A partial chart: only one of the ten planetary points is present. -/
def sample_partial_chart : ChartData :=
  { birth_info := sample_birth,
    planets := [("sun", sample_position)],
    houses := [(HouseKey.int 1, 123.45), (HouseKey.int 2, 153.45)],
    ayanamsa := 24.18 }

/-- **C1 (code bug).** Saving a partial chart and loading the written
document back yields a record whose `houses` mapping is keyed by the JSON
object's *strings* `"1"`, `"2"`, ... while the original is keyed by the
ints `1`, `2`, ...: `load (save record) ≠ record`.  Everything else (birth
info, planets, ayanamsa) is restored exactly. -/
theorem C1_roundtrip_code_bug :
    load_chart (FileContent.json
        (save_chart sample_partial_chart "2024-01-01T00:00:00" "chart.vac").content) =
      some { sample_partial_chart with
             houses := [(HouseKey.str "1", 123.45), (HouseKey.str "2", 153.45)] } ∧
    ({ sample_partial_chart with
       houses := [(HouseKey.str "1", 123.45), (HouseKey.str "2", 153.45)] } : ChartData) ≠
      sample_partial_chart := by
  constructor
  · rfl
  · intro h
    have hh := congrArg ChartData.houses h
    simp [sample_partial_chart] at hh

/-- **C8.** `load_chart` returns absence instead of propagating a parse
failure: a malformed file loads as `none`, and so does any JSON document
missing one of the required fields `birth_info`, `planets`, `houses`,
`ayanamsa`. -/
theorem C8_load_never_raises :
    load_chart FileContent.malformed = none ∧
    (∀ j : Json, j.getKey? "birth_info" = none → load_chart (.json j) = none) ∧
    (∀ j : Json, j.getKey? "planets" = none → load_chart (.json j) = none) ∧
    (∀ j : Json, j.getKey? "houses" = none → load_chart (.json j) = none) ∧
    (∀ j : Json, j.getKey? "ayanamsa" = none → load_chart (.json j) = none) := by
  refine ⟨rfl, ?_, ?_, ?_, ?_⟩ <;>
    intro j h <;> simp [load_chart, load_chart_json, h]

/-- Witness for C8: the empty JSON object lacks every required field and
loads as `none`. -/
theorem C8_load_never_raises_witness :
    load_chart (.json (Json.obj [])) = none :=
  C8_load_never_raises.2.1 (Json.obj []) rfl

/-- **C10.** When the target path does not end in `.vac`, `save_chart`
writes to `path ++ ".vac"` (and still reports success), so a subsequent
load from the original extension-less path finds no file and returns
absence. -/
theorem C10_save_appends_extension (fs : FileSystem) (c : ChartData)
    (created filepath : String)
    (hext : str_endswith filepath FILE_EXTENSION = false)
    (hnof : fs filepath = none) :
    (save_chart c created filepath).path = filepath ++ ".vac" ∧
    (save_chart c created filepath).success = true ∧
    load_from_fs (save_to_fs fs c created filepath) filepath = none := by
  have hne : filepath ≠ filepath ++ FILE_EXTENSION := by
    intro hp
    have hlen := congrArg String.length hp
    rw [String.length_append] at hlen
    simp [FILE_EXTENSION] at hlen
    exact absurd hlen (by decide)
  refine ⟨?_, ?_, ?_⟩
  · simp only [save_chart, hext, Bool.false_eq_true, if_false]
    rfl
  · rfl
  · simp only [load_from_fs, save_to_fs, save_chart, hext, Bool.false_eq_true,
      if_false]
    rw [if_neg hne, hnof]

/-- A chart with no points and no houses, used as concrete input. -/
def empty_chart : ChartData :=
  { birth_info := sample_birth, planets := [], houses := [], ayanamsa := 24.18 }

/-- Witness for C10 at the extension-less path `"mychart"` on an empty file
system. -/
theorem C10_save_appends_extension_witness :
    (save_chart empty_chart "2024-01-01T00:00:00" "mychart").path = "mychart" ++ ".vac" ∧
    (save_chart empty_chart "2024-01-01T00:00:00" "mychart").success = true ∧
    load_from_fs
      (save_to_fs (fun _ => none) empty_chart "2024-01-01T00:00:00" "mychart")
      "mychart" = none :=
  C10_save_appends_extension (fun _ => none) empty_chart "2024-01-01T00:00:00"
    "mychart" (by decide) rfl

/-- The position `create_planetary_position` builds for an in-range year. -/
def built_position (planet_name : String) (degree : ℚ) (year : ℤ) :
    PlanetaryPosition :=
  let s := normalize_degree (degree - ayanamsa_value year)
  { name := planet_name, sign := (get_zodiac_sign s).1.name_str,
    degree := (get_zodiac_sign s).2,
    nakshatra := (get_nakshatra_and_pada s).1.name_str,
    pada := (get_nakshatra_and_pada s).2, absolute_degree := s }

lemma create_planetary_position_ok (planet_name : String) (degree : ℚ)
    (year : ℤ) (h1 : 1800 ≤ year) (h2 : year ≤ 2200) :
    create_planetary_position planet_name degree year =
      Except.ok (built_position planet_name degree year) := by
  unfold create_planetary_position built_position
  rw [tropical_to_sidereal_ok degree year h1 h2]
  rfl

/-- **C7.** When the ephemeris capability fails for saturn alone (and the
birth data is geocoded with an in-range year), chart assembly neither
fails nor aborts: it returns a `ChartData` with exactly 9 planetary
positions, with no `saturn` entry. -/
theorem C7_graceful_degradation (eph : String → Option ℚ)
    (ephHouse : ℕ → Option ℚ) (geo : String → Option (ℚ × ℚ))
    (birth : BirthData) (la lo : ℚ)
    (hla : birth.latitude = some la) (hlo : birth.longitude = some lo)
    (hy1 : 1800 ≤ birth.year) (hy2 : birth.year ≤ 2200)
    (hsat : eph "SATURN" = none)
    (hok : ∀ s, s ≠ "SATURN" → (eph s).isSome) :
    ∃ c, generate_chart eph ephHouse geo birth = Except.ok c ∧
      c.planets.length = 9 ∧ c.planets.lookup "saturn" = none := by
  obtain ⟨qA, hA⟩ := Option.isSome_iff_exists.mp (hok "ASC" (by decide))
  obtain ⟨qS, hS⟩ := Option.isSome_iff_exists.mp (hok "SUN" (by decide))
  obtain ⟨qM, hM⟩ := Option.isSome_iff_exists.mp (hok "MOON" (by decide))
  obtain ⟨qMa, hMa⟩ := Option.isSome_iff_exists.mp (hok "MARS" (by decide))
  obtain ⟨qMe, hMe⟩ := Option.isSome_iff_exists.mp (hok "MERCURY" (by decide))
  obtain ⟨qJ, hJ⟩ := Option.isSome_iff_exists.mp (hok "JUPITER" (by decide))
  obtain ⟨qV, hV⟩ := Option.isSome_iff_exists.mp (hok "VENUS" (by decide))
  obtain ⟨qR, hR⟩ := Option.isSome_iff_exists.mp (hok "NORTH_NODE" (by decide))
  obtain ⟨qK, hK⟩ := Option.isSome_iff_exists.mp (hok "SOUTH_NODE" (by decide))
  have crok : ∀ n d, create_planetary_position n d birth.year =
      Except.ok (built_position n d birth.year) :=
    fun n d => create_planetary_position_ok n d birth.year hy1 hy2
  have hplanets : build_planets eph birth.year =
      [("lagna", built_position "lagna" qA birth.year),
       ("sun", built_position "sun" qS birth.year),
       ("moon", built_position "moon" qM birth.year),
       ("mars", built_position "mars" qMa birth.year),
       ("mercury", built_position "mercury" qMe birth.year),
       ("jupiter", built_position "jupiter" qJ birth.year),
       ("venus", built_position "venus" qV birth.year),
       ("rahu", built_position "rahu" qR birth.year),
       ("ketu", built_position "ketu" qK birth.year)] := by
    simp [build_planets, PLANETS, FLATLIB_PLANET_MAP, List.lookup,
      hA, hS, hM, hMa, hMe, hJ, hV, hsat, hR, hK, crok, Except.toOption]
  have hcond : ¬(birth.latitude = none ∨ birth.longitude = none) := by
    simp [hla, hlo]
  refine ⟨{ birth_info := birth, planets := build_planets eph birth.year,
            houses := build_houses ephHouse birth.year,
            ayanamsa := ayanamsa_value birth.year }, ?_, ?_, ?_⟩
  · simp only [generate_chart, if_neg hcond, pure_bind]
    rw [calculate_ayanamsa_ok birth.year hy1 hy2]
    rfl
  · rw [hplanets]
    rfl
  · rw [hplanets]
    rfl

/-- An ephemeris capability for which exactly the saturn point fails. -/
def saturn_failing_eph : String → Option ℚ :=
  fun s => if s = "SATURN" then none else some 100

/-- Witness for C7: a concrete ephemeris failing only for saturn yields a
9-point chart for the sample birth data. -/
theorem C7_graceful_degradation_witness :
    ∃ c, generate_chart saturn_failing_eph (fun _ => some 50) (fun _ => none)
        sample_birth = Except.ok c ∧
      c.planets.length = 9 ∧ c.planets.lookup "saturn" = none :=
  C7_graceful_degradation saturn_failing_eph (fun _ => some 50) (fun _ => none)
    sample_birth 13.0827 80.2707 rfl rfl (by decide) (by decide) rfl
    (fun s hs => by simp [saturn_failing_eph, hs])

end VedicAstro
